import Mathlib

/-!
Verification of the call-binding and lowering subsystem of
`src/io/scene/mdl_elements/mdl_elements_function_call.cpp` (class
`MI::MDL::Mdl_function_call`).

Shallow embedding: the call-node state is a Lean structure, the member
functions are Lean functions returning the error code together with the
updated state.  External collaborators (the type-compatibility predicate,
the varying-return analysis, the expression-to-DAG converter, the JIT
compiler entry points) live outside the given source file and are modelled
as oracle fields of environment structures, faithful to the spec's
description of their interfaces.
-/

set_option autoImplicit false

namespace MdlFC

/-- Modifier bit for uniform types (`IType::MK_UNIFORM` of the scene-element
type system). -/
def MK_UNIFORM : Nat := 2

/-- Modifier bit for varying types (`IType::MK_VARYING`). -/
def MK_VARYING : Nat := 4

/-- Expression kinds (`IExpression::Kind`); `set_argument` accepts only
`constant` and `call`. -/
inductive ExprKind where
  | constant
  | call
  | parameter
  | direct_call
  | temporary
deriving DecidableEq, Repr

/-- A scene-element type as seen by the argument binder: `set_argument` only
inspects the aggregated modifier bitmask (`get_all_type_modifiers`); `id`
distinguishes types so that the compatibility oracle can be nontrivial. -/
structure IType where
  id : Nat
  all_modifiers : Nat
deriving DecidableEq, Repr

/-- A scene-element expression as seen by the binder and the reference
collector: its kind, its type (`get_type`), and — modelled from the spec —
the set `refs` of store ids the expression transitively references (used by
the external `collect_references` helper). -/
structure IExpression where
  kind : ExprKind
  tp : IType
  refs : List Nat
deriving DecidableEq, Repr

/-- Modelled from the spec: the external helpers
`argument_type_matches_parameter_type` (the pure type-compatibility
predicate of the Type Compatibility Checker) and `return_type_is_varying`
(the recursive effective-varying analysis of an argument expression) live in
`mdl_elements_utilities`, outside the given source; they are oracles here. -/
structure BindEnv where
  type_matches : IType → IType → Bool
  ret_varying : IExpression → Bool

/-- The call node (`Mdl_function_call`) state: the fields read and written by
the member functions under verification.  Opaque `DB::Tag` references are
natural numbers. -/
structure Mdl_function_call where
  m_module_tag : Nat
  m_definition_tag : Nat
  m_function_index : Nat
  m_mdl_semantic : Nat
  m_definition_name : String
  m_immutable : Bool
  m_parameter_types : List (String × IType)
  m_return_type : IType
  m_arguments : List (String × IExpression)
  m_enable_if_conditions : List (String × IExpression)
deriving DecidableEq, Repr

/-- `IType_list::get_type(index)`: the type stored at position `index`, none
when the index is out of range. -/
def get_type (l : List (String × IType)) (index : Nat) : Option IType :=
  (l.get? index).map (fun p => p.2)

/-- `IExpression_list::get_expression(name)`: the expression stored under the
first entry named `name`, none when the name is absent. -/
def lookupExpr (l : List (String × IExpression)) (name : String) : Option IExpression :=
  (l.find? (fun p => p.1 == name)).map (fun p => p.2)

/-- `IExpression_list::set_expression(index, expr)`: replaces the expression
stored at `index`, keeping its name; an out-of-range index leaves the list
unchanged (the C++ call then returns an error code which `set_argument`
ignores). -/
def setExpr (l : List (String × IExpression)) (index : Nat) (e : IExpression) :
    List (String × IExpression) :=
  match l.get? index with
  | none => l
  | some p => l.set index (p.1, e)

/-- `m_ef->clone(argument, nullptr, false)`: the expression factory's deep
clone; with value semantics a deep clone is the identical value (value-equal,
aliasing with the caller's copy severed). -/
def ef_clone (e : IExpression) : IExpression := e

/-- `Mdl_function_call::set_argument(transaction, index, argument)`
(lines 199-226): the index-based binder.  Returns the error code and the
updated node. -/
def set_argument (env : BindEnv) (node : Mdl_function_call) (index : Nat)
    (argument : Option IExpression) : Int × Mdl_function_call :=
  match argument with
  | none => (-1, node)
  | some argument =>
    match get_type node.m_parameter_types index with
    | none => (-2, node)
    | some expected_type =>
      if env.type_matches argument.tp expected_type = false then (-3, node)
      else if node.m_immutable = true then (-4, node)
      else if argument.tp.all_modifiers &&& MK_VARYING ≠ 0 ∧
              expected_type.all_modifiers &&& MK_UNIFORM ≠ 0 then (-5, node)
      else if argument.kind ≠ ExprKind.constant ∧ argument.kind ≠ ExprKind.call then
        (-6, node)
      else if expected_type.all_modifiers &&& MK_UNIFORM ≠ 0 ∧
              env.ret_varying argument = true then (-8, node)
      else
        (0, { node with
                m_arguments := setExpr node.m_arguments index (ef_clone argument) })

/-- Modelled from the spec: `IExpression_list::get_index` (external list
implementation) returns `mi::Size(-1)` when the name is absent; on a 64-bit
build that is `2 ^ 64 - 1`, an index that never resolves to a declared
parameter. -/
def invalidIndex : Nat := 2 ^ 64 - 1

/-- `Mdl_function_call::get_parameter_index(name)`: position of the first
argument entry with the given name, `invalidIndex` when absent. -/
def get_parameter_index (node : Mdl_function_call) (name : String) : Nat :=
  match node.m_arguments.findIdx? (fun p => p.1 == name) with
  | some i => i
  | none => invalidIndex

/-- `Mdl_function_call::set_argument(transaction, name, argument)`
(lines 228-235): the name-based binder; a null name or a null argument gives
`-1` before any name resolution. -/
def set_argument_by_name (env : BindEnv) (node : Mdl_function_call)
    (name : Option String) (argument : Option IExpression) :
    Int × Mdl_function_call :=
  match name, argument with
  | none, _ => (-1, node)
  | some _, none => (-1, node)
  | some name, some argument =>
      set_argument env node (get_parameter_index node name) (some argument)

/-- The loop body of `Mdl_function_call::set_arguments` (lines 188-195):
iterates over the entries of the given list in order, looking each name up in
the full list `all` (that is what `arguments->get_expression(name)` does) and
stopping at the first failing bind. -/
def set_arguments_loop (env : BindEnv) (all : List (String × IExpression)) :
    Mdl_function_call → List (String × IExpression) → Int × Mdl_function_call
  | node, [] => (0, node)
  | node, (name, _) :: rest =>
    let res := set_argument_by_name env node (some name) (lookupExpr all name)
    if res.1 ≠ 0 then res else set_arguments_loop env all res.2 rest

/-- `Mdl_function_call::set_arguments(transaction, arguments)`
(lines 183-197): null list gives `-1`, otherwise the per-entry loop. -/
def set_arguments (env : BindEnv) (node : Mdl_function_call)
    (arguments : Option (List (String × IExpression))) : Int × Mdl_function_call :=
  match arguments with
  | none => (-1, node)
  | some entries => set_arguments_loop env entries node entries

/-- Modelled from the spec: `collect_references` on an expression list (an
external helper in `mdl_elements_utilities`) returns "every node referenced
transitively" by the expressions; each expression carries its transitively
referenced ids in its `refs` field. -/
def collect_references (l : List (String × IExpression)) : List Nat :=
  l.flatMap (fun p => p.2.refs)

/-- `Mdl_function_call::get_scene_element_references` (lines 524-534): the
owner module tag is inserted only for mutable nodes, then the references of
the arguments and of the enable-if conditions are collected.  The `Tag_set`
result is a list here; only membership matters. -/
def get_scene_element_references (node : Mdl_function_call) : List Nat :=
  (if node.m_immutable then [] else [node.m_module_tag])
    ++ collect_references node.m_arguments
    ++ collect_references node.m_enable_if_conditions

/-- The value stream written by the serializer: one token per typed
`write`/`read` call (tags, 32-bit integers, strings, booleans, and the
factory-(de)serialized type/expression lists). -/
inductive Token where
  | tag (t : Nat)
  | uint32 (v : Nat)
  | str (s : String)
  | boolean (b : Bool)
  | tlist (l : List (String × IType))
  | ty (t : IType)
  | elist (l : List (String × IExpression))
deriving DecidableEq, Repr

/-- `Mdl_function_call::serialize` (lines 444-461): the fields in write
order.  `m_mdl_semantic` is written through `static_cast<mi::Uint32>`, hence
the `% 2 ^ 32`.  The external base-class payload
(`Scene_element_base::serialize`) is outside the given source and carries no
field of this class. -/
def serialize (node : Mdl_function_call) : List Token :=
  [ Token.tag node.m_module_tag,
    Token.tag node.m_definition_tag,
    Token.uint32 node.m_function_index,
    Token.uint32 (node.m_mdl_semantic % 2 ^ 32),
    Token.str node.m_definition_name,
    Token.boolean node.m_immutable,
    Token.tlist node.m_parameter_types,
    Token.ty node.m_return_type,
    Token.elist node.m_arguments,
    Token.elist node.m_enable_if_conditions ]

/-- `Mdl_function_call::deserialize` (lines 463-482): typed reads in the same
order; a stream not shaped as `serialize` wrote it fails. -/
def deserialize : List Token → Option (Mdl_function_call × List Token)
  | Token.tag mt :: Token.tag dt :: Token.uint32 fi :: Token.uint32 sem ::
    Token.str dn :: Token.boolean im :: Token.tlist pt :: Token.ty rt ::
    Token.elist args :: Token.elist eic :: rest =>
      some ({ m_module_tag := mt,
              m_definition_tag := dt,
              m_function_index := fi,
              m_mdl_semantic := sem,
              m_definition_name := dn,
              m_immutable := im,
              m_parameter_types := pt,
              m_return_type := rt,
              m_arguments := args,
              m_enable_if_conditions := eic }, rest)
  | _ => none

/-! ### Graph lowering (`create_jitted_function`) -/

/-- Kinds of `mi::mdl::IType` relevant to `create_jitted_function`:
`TK_COLOR`, `TK_FLOAT`, `TK_STRUCT` (symbol plus (type, field-name) pairs),
all remaining kinds collapsed into `other`.  Alias types are not modelled, so
`skip_type_alias` is the identity here. -/
inductive MdlType where
  | color
  | float
  | struct_ (symbol : String) (fields : List (MdlType × String))
  | other (k : Nat)
deriving Repr

/-- `c_type->skip_type_alias()->get_kind() == mi::mdl::IType::TK_COLOR`. -/
def isColorKind : MdlType → Bool
  | MdlType.color => true
  | _ => false

/-- `f_type->skip_type_alias()->get_kind() == mi::mdl::IType::TK_FLOAT`. -/
def isFloatKind : MdlType → Bool
  | MdlType.float => true
  | _ => false

/-- The field part of the return-type check (lines 317-328): exactly two
fields, the first of color kind, the second of float kind. -/
def texture_return_fields : List (MdlType × String) → Bool
  | [(c_type, _), (f_type, _)] => isColorKind c_type && isFloatKind f_type
  | _ => false

/-- The return-type validation of `create_jitted_function` (lines 312-333):
a color type is accepted; a struct type is accepted when its fields are
(color, float) and its symbol is exactly `::base::texture_return` (the name
check overrides the field check); everything else is rejected. -/
def checkReturnType : MdlType → Bool
  | MdlType.color => true
  | MdlType.struct_ sym fields =>
      if sym != "::base::texture_return" then false else texture_return_fields fields
  | _ => false

/-- A DAG node handed to the external compiler: either a call node built by
`ILambda_function::create_call` (name, semantic, named arguments, return
type) or a node produced by the external expression converter. -/
inductive DagNode where
  | call (name : String) (semantic : Nat) (args : List (String × DagNode))
      (ret : MdlType)
  | ext (id : Nat)
deriving Repr

/-- Symbolic value standing for
`mi::mdl::IDefinition::DS_INTRINSIC_DAG_FIELD_ACCESS` (the enum lives in an
external header; only its identity matters here). -/
def DS_INTRINSIC_DAG_FIELD_ACCESS : Nat := 1

/-- The lambda-style compilation unit (`mi::mdl::ILambda_function`):
its context kind, the root expressions stored by `store_root_expr`, and the
body set by `set_body`. -/
structure Lambda where
  env_context : Bool
  roots : List DagNode
  body : Option DagNode
deriving Repr

/-- Modelled from the spec: the external collaborators of
`create_jitted_function` — availability of the JIT code generator
(`load_code_generator("jit")`), the definition's return type and semantic
(definition registry), the code DAG's parameter names/types and function
name, the recursive converter `int_expr_to_mdl_dag_node` (an oracle whose
failure, `none`, covers type mismatch, unsuitable DB elements, and traversal
of a reference cycle in the argument graph), and the two compile entry
points, which return the compiled function handle or `none`. -/
structure JitEnv where
  generator_ok : Bool
  return_type : MdlType
  def_semantic : Nat
  dag_function_name : String
  dag_params : List (String × MdlType)
  convert : MdlType → Option IExpression → Option DagNode
  compile_switch : Lambda → Option Nat
  compile_env : Lambda → Option Nat

/-- Modelled from the spec: the external helper `add_mdl_db_prefix` that
turns a compiler-level function name into the database name carried by the
diagnostic ("carrying the qualified name of the call"). -/
def mdlDbName (s : String) : String := "mdl::" ++ s

/-- The argument-conversion loop of `create_jitted_function` (lines 365-386):
for every parameter of the code DAG, look up the bound argument by parameter
name and convert it; any failing conversion aborts the whole loop. -/
def convertArgs (env : JitEnv) (args : List (String × IExpression)) :
    List (String × MdlType) → Option (List (String × DagNode))
  | [] => some []
  | (pname, ptype) :: rest =>
    match env.convert ptype (lookupExpr args pname) with
    | none => none
    | some d =>
      match convertArgs env args rest with
      | none => none
      | some l => some ((pname, d) :: l)

/-- The observable outcome of `create_jitted_function`: the compiled function
handle (or none), the `errors` output, the final compilation unit (none when
it was never built), whether a compile entry point was invoked, and the
diagnostics logged. -/
structure JitResult where
  jitted : Option Nat
  errors : Int
  lambda_func : Option Lambda
  compile_invoked : Bool
  log : List String
deriving Repr

/-- `Mdl_function_call::create_jitted_function` (lines 284-442): generator
check (`-1`), return-type validation (`-2`), argument conversion (`-3`, with
the diagnostic), DAG call construction, the legacy struct unwrap via a
`DS_INTRINSIC_DAG_FIELD_ACCESS` node, attachment as root (switch context) or
body (environment context), and the context-specific compile entry point
(`-4` on null).  The generator options block (lines 350-363) configures the
external generator only and is not modelled. -/
def create_jitted_function (env : JitEnv) (node : Mdl_function_call)
    (environment_context : Bool) : JitResult :=
  if env.generator_ok = false then
    { jitted := none, errors := -1, lambda_func := none,
      compile_invoked := false, log := [] }
  else if checkReturnType env.return_type = false then
    { jitted := none, errors := -2, lambda_func := none,
      compile_invoked := false, log := [] }
  else
    let lambda0 : Lambda := { env_context := environment_context, roots := [], body := none }
    match convertArgs env node.m_arguments env.dag_params with
    | none =>
      { jitted := none, errors := -3, lambda_func := some lambda0,
        compile_invoked := false, log := [mdlDbName env.dag_function_name] }
    | some mdl_arguments =>
      let call0 : DagNode :=
        DagNode.call env.dag_function_name env.def_semantic mdl_arguments env.return_type
      let call : DagNode :=
        match env.return_type with
        | MdlType.struct_ sym ((f_type, f_name) :: _) =>
            DagNode.call (sym ++ "." ++ f_name ++ "(" ++ sym ++ ")")
              DS_INTRINSIC_DAG_FIELD_ACCESS [("s", call0)] f_type
        | _ => call0
        -- a field-less struct cannot reach this point: validation required two fields
      let lambda_func : Lambda :=
        if environment_context then { lambda0 with body := some call }
        else { lambda0 with roots := lambda0.roots ++ [call] }
      match (if environment_context then env.compile_env lambda_func
             else env.compile_switch lambda_func) with
      | none =>
        { jitted := none, errors := -4, lambda_func := some lambda_func,
          compile_invoked := true, log := [] }
      | some f =>
        { jitted := some f, errors := 0, lambda_func := some lambda_func,
          compile_invoked := true, log := [] }

/-! ### Helper lemmas -/

theorem set_argument_fail_eq (env : BindEnv) (node : Mdl_function_call) (index : Nat)
    (argument : Option IExpression)
    (h : (set_argument env node index argument).1 ≠ 0) :
    (set_argument env node index argument).2 = node := by
  rcases argument with _ | a
  · rfl
  · rcases hget : get_type node.m_parameter_types index with _ | et
    · simp [set_argument, hget]
    · simp only [set_argument, hget] at h ⊢
      split_ifs at h ⊢ <;> simp_all

theorem set_argument_by_name_fail_eq (env : BindEnv) (node : Mdl_function_call)
    (name : Option String) (argument : Option IExpression)
    (h : (set_argument_by_name env node name argument).1 ≠ 0) :
    (set_argument_by_name env node name argument).2 = node := by
  rcases name with _ | nm
  · rfl
  · rcases argument with _ | a
    · rfl
    · exact set_argument_fail_eq env node (get_parameter_index node nm) (some a) h

/-! ### Witness fixtures -/

/-- A compatibility oracle accepting everything and a varying-analysis oracle
reporting nothing varying, for concrete witnesses. -/
def wenv : BindEnv := { type_matches := fun _ _ => true, ret_varying := fun _ => false }

/-- A compatibility oracle rejecting everything, for exhibiting type-mismatch
binds. -/
def cenv : BindEnv := { type_matches := fun _ _ => false, ret_varying := fun _ => false }

/-- A modifier-free type for witnesses. -/
def wtype : IType := { id := 0, all_modifiers := 0 }

/-- A constant-kind expression for witnesses. -/
def wexpr : IExpression := { kind := ExprKind.constant, tp := wtype, refs := [] }

/-- A mutable one-parameter call node for witnesses. -/
def wnode : Mdl_function_call :=
  { m_module_tag := 10, m_definition_tag := 11, m_function_index := 0,
    m_mdl_semantic := 3, m_definition_name := "::m::f", m_immutable := false,
    m_parameter_types := [("a", wtype)], m_return_type := wtype,
    m_arguments := [("a", { kind := ExprKind.call, tp := wtype, refs := [42] })],
    m_enable_if_conditions := [] }

/-- The immutable variant of `wnode`. -/
def cnode : Mdl_function_call := { wnode with m_immutable := true }

/-! ### Claims about the argument binder -/

/-- C1: `set_argument` (bind_one by index) runs its validation checks in
exactly this order, the first failing check determining the result:
null argument → -1 (MissingArgument); index not resolving to a declared
parameter → -2 (UnknownParameter); incompatible argument type → -3
(TypeMismatch); immutable node → -4 (ImmutableNode); varying argument type
into uniform parameter type → -5 (VaryingIntoUniform); expression kind
neither constant nor call → -6 (UnsupportedExpressionKind); uniform parameter
with effectively-varying argument → -8 (EffectivelyVarying); otherwise the
argument is deep-cloned (value-equal) and stored at the resolved slot,
replacing any previous binding, and 0 is returned. -/
theorem claim_C1_bind_one_pipeline (env : BindEnv) (node : Mdl_function_call)
    (index : Nat) :
    (set_argument env node index none = (-1, node)) ∧
    (∀ a, get_type node.m_parameter_types index = none →
      set_argument env node index (some a) = (-2, node)) ∧
    (∀ a et, get_type node.m_parameter_types index = some et →
      env.type_matches a.tp et = false →
      set_argument env node index (some a) = (-3, node)) ∧
    (∀ a et, get_type node.m_parameter_types index = some et →
      env.type_matches a.tp et = true →
      node.m_immutable = true →
      set_argument env node index (some a) = (-4, node)) ∧
    (∀ a et, get_type node.m_parameter_types index = some et →
      env.type_matches a.tp et = true →
      node.m_immutable = false →
      a.tp.all_modifiers &&& MK_VARYING ≠ 0 →
      et.all_modifiers &&& MK_UNIFORM ≠ 0 →
      set_argument env node index (some a) = (-5, node)) ∧
    (∀ a et, get_type node.m_parameter_types index = some et →
      env.type_matches a.tp et = true →
      node.m_immutable = false →
      ¬(a.tp.all_modifiers &&& MK_VARYING ≠ 0 ∧
        et.all_modifiers &&& MK_UNIFORM ≠ 0) →
      a.kind ≠ ExprKind.constant → a.kind ≠ ExprKind.call →
      set_argument env node index (some a) = (-6, node)) ∧
    (∀ a et, get_type node.m_parameter_types index = some et →
      env.type_matches a.tp et = true →
      node.m_immutable = false →
      ¬(a.tp.all_modifiers &&& MK_VARYING ≠ 0 ∧
        et.all_modifiers &&& MK_UNIFORM ≠ 0) →
      (a.kind = ExprKind.constant ∨ a.kind = ExprKind.call) →
      et.all_modifiers &&& MK_UNIFORM ≠ 0 →
      env.ret_varying a = true →
      set_argument env node index (some a) = (-8, node)) ∧
    (∀ a et, get_type node.m_parameter_types index = some et →
      env.type_matches a.tp et = true →
      node.m_immutable = false →
      ¬(a.tp.all_modifiers &&& MK_VARYING ≠ 0 ∧
        et.all_modifiers &&& MK_UNIFORM ≠ 0) →
      (a.kind = ExprKind.constant ∨ a.kind = ExprKind.call) →
      ¬(et.all_modifiers &&& MK_UNIFORM ≠ 0 ∧ env.ret_varying a = true) →
      set_argument env node index (some a) =
        (0, { node with
                m_arguments := setExpr node.m_arguments index (ef_clone a) }) ∧
      ef_clone a = a) := by
  refine ⟨rfl, ?_, ?_, ?_, ?_, ?_, ?_, ?_⟩
  · intro a hget
    simp [set_argument, hget]
  · intro a et hget hm
    simp [set_argument, hget, hm]
  · intro a et hget hm him
    simp [set_argument, hget, hm, him]
  · intro a et hget hm him hv hu
    simp [set_argument, hget, hm, him, hv, hu]
  · intro a et hget hm him hvu hkc hkk
    simp [set_argument, hget, hm, him, hvu, hkc, hkk]
  · intro a et hget hm him hvu hk hu hr
    have hv0 : a.tp.all_modifiers &&& MK_VARYING = 0 := by
      by_contra hv
      exact hvu ⟨hv, hu⟩
    rcases hk with hk | hk <;>
      simp [set_argument, hget, hm, him, hv0, hk, hu, hr]
  · intro a et hget hm him hvu hk hnu
    rcases hk with hk | hk <;>
      exact ⟨by simp [set_argument, hget, hm, him, hvu, hk, hnu], rfl⟩

/-- C1 witness: the success path of the pipeline at a concrete node. -/
theorem claim_C1_witness :
    set_argument wenv wnode 0 (some wexpr) =
      (0, { wnode with
              m_arguments := setExpr wnode.m_arguments 0 (ef_clone wexpr) }) ∧
    ef_clone wexpr = wexpr :=
  (claim_C1_bind_one_pipeline wenv wnode 0).2.2.2.2.2.2.2 wexpr wtype rfl rfl rfl
    (by decide) (Or.inl rfl) (by decide)

/-- C2 counterexample: an immutable node bound with a non-null but
type-incompatible argument fails with TypeMismatch (-3), not
ImmutableNode (-4) — the type check runs before the immutability check. -/
theorem claim_C2_counterexample :
    cnode.m_immutable = true ∧
    set_argument cenv cnode 0 (some wexpr) = (-3, cnode) ∧
    (set_argument cenv cnode 0 (some wexpr)).1 ≠ -4 := by
  decide

/-- C2 (amended): for every immutable call node and every non-null argument
whose index resolves to a declared parameter and whose type is compatible
with that parameter's expected type, `set_argument` fails with
ImmutableNode (-4). -/
theorem claim_C2_immutable_rejection (env : BindEnv) (node : Mdl_function_call)
    (index : Nat) (a : IExpression) (et : IType)
    (hget : get_type node.m_parameter_types index = some et)
    (hm : env.type_matches a.tp et = true)
    (him : node.m_immutable = true) :
    set_argument env node index (some a) = (-4, node) := by
  simp [set_argument, hget, hm, him]

/-- C2 witness: the amended claim at a concrete immutable node. -/
theorem claim_C2_witness :
    set_argument wenv cnode 0 (some wexpr) = (-4, cnode) :=
  claim_C2_immutable_rejection wenv cnode 0 wexpr wtype rfl rfl rfl

/-- C9: every failing `set_argument` invocation — whichever error occurs —
leaves the call node (arguments, parameter types, mutability flag, all
fields) unchanged; only the success path mutates the node. -/
theorem claim_C9_failure_leaves_node_unchanged (env : BindEnv)
    (node : Mdl_function_call) (index : Nat) (argument : Option IExpression)
    (h : (set_argument env node index argument).1 ≠ 0) :
    (set_argument env node index argument).2 = node :=
  set_argument_fail_eq env node index argument h

/-- C9 witness: an out-of-range bind leaves the concrete node unchanged. -/
theorem claim_C9_witness :
    (set_argument wenv wnode 5 (some wexpr)).2 = wnode :=
  claim_C9_failure_leaves_node_unchanged wenv wnode 5 (some wexpr) (by decide)

/-- C10: the name-based `set_argument` with a null parameter name returns -1
(the MissingArgument code, as for a null argument) before any name
resolution; a non-null unresolvable name instead yields -2
(UnknownParameter) through the index-based overload. -/
theorem claim_C10_null_name (env : BindEnv) (node : Mdl_function_call) :
    (∀ a, set_argument_by_name env node none a = (-1, node)) ∧
    (∀ nm e, node.m_arguments.findIdx? (fun p => p.1 == nm) = none →
      node.m_parameter_types.length ≤ invalidIndex →
      set_argument_by_name env node (some nm) (some e) = (-2, node)) := by
  constructor
  · intro a; rfl
  · intro nm e hfind hlen
    have hidx : get_parameter_index node nm = invalidIndex := by
      simp [get_parameter_index, hfind]
    have hget : get_type node.m_parameter_types invalidIndex = none := by
      simp [get_type, hlen]
    simp [set_argument_by_name, hidx, set_argument, hget, hlen]

/-- C10 witness: null name gives -1, an absent name gives -2, on the concrete
node. -/
theorem claim_C10_witness :
    set_argument_by_name wenv wnode none (some wexpr) = (-1, wnode) ∧
    set_argument_by_name wenv wnode (some "zz") (some wexpr) = (-2, wnode) :=
  ⟨(claim_C10_null_name wenv wnode).1 (some wexpr),
   (claim_C10_null_name wenv wnode).2 "zz" wexpr (by decide) (by decide)⟩

/-! ### Claims about bulk binding, serialization and references -/

theorem set_arguments_loop_append (env : BindEnv)
    (all L1 L2 : List (String × IExpression)) (node : Mdl_function_call) :
    set_arguments_loop env all node (L1 ++ L2) =
      (if (set_arguments_loop env all node L1).1 = 0
       then set_arguments_loop env all (set_arguments_loop env all node L1).2 L2
       else set_arguments_loop env all node L1) := by
  induction L1 generalizing node with
  | nil => simp [set_arguments_loop]
  | cons p rest ih =>
    obtain ⟨nm, e⟩ := p
    simp only [List.cons_append, set_arguments_loop]
    by_cases h : (set_argument_by_name env node (some nm) (lookupExpr all nm)).1 = 0
    · simp [h, ih]
    · simp [h]

/-- C5: `set_arguments` (bind_all) applies the name-based `set_argument` to
the entries in list order and returns the first failing entry's error; when
the first failure occurs at position `k` (here: after the prefix `L1` bound
successfully, on entry `(nm, e)`), the node state is exactly the state
`node1` reached after binding `L1`, and the entries after the failure are
untouched — bulk binding is per-entry, not all-or-nothing. -/
theorem claim_C5_first_failure_semantics (env : BindEnv)
    (node node1 : Mdl_function_call)
    (L1 L2 : List (String × IExpression)) (nm : String) (e : IExpression)
    (c : Int)
    (hok : set_arguments_loop env (L1 ++ (nm, e) :: L2) node L1 = (0, node1))
    (hfail : (set_argument_by_name env node1 (some nm)
        (lookupExpr (L1 ++ (nm, e) :: L2) nm)).1 = c)
    (hc : c ≠ 0) :
    set_arguments env node (some (L1 ++ (nm, e) :: L2)) = (c, node1) := by
  have hne : (set_argument_by_name env node1 (some nm)
      (lookupExpr (L1 ++ (nm, e) :: L2) nm)).1 ≠ 0 :=
    fun h => hc (hfail.symm.trans h)
  have hsnd := set_argument_by_name_fail_eq env node1 (some nm)
      (lookupExpr (L1 ++ (nm, e) :: L2) nm) hne
  simp only [set_arguments]
  rw [set_arguments_loop_append env (L1 ++ (nm, e) :: L2) L1 ((nm, e) :: L2) node,
    hok, if_pos (show ((0 : Int), node1).1 = 0 from rfl)]
  simp only [set_arguments_loop]
  rw [if_pos hne]
  exact Prod.ext hfail hsnd

/-- An id-comparing compatibility oracle for the C5 witness. -/
def env5 : BindEnv :=
  { type_matches := fun a e => a.id == e.id, ret_varying := fun _ => false }

/-- The second parameter type of the C5 witness node. -/
def btype : IType := { id := 1, all_modifiers := 0 }

/-- The initial expression bound to both parameters of the C5 witness node. -/
def we0 : IExpression := { kind := ExprKind.constant, tp := wtype, refs := [] }

/-- The compatible replacement argument for parameter `a`. -/
def eA : IExpression :=
  { kind := ExprKind.constant, tp := { id := 0, all_modifiers := 0 }, refs := [7] }

/-- The type-incompatible replacement argument for parameter `b`. -/
def eBad : IExpression :=
  { kind := ExprKind.constant, tp := { id := 9, all_modifiers := 0 }, refs := [] }

/-- The two-parameter C5 witness node. -/
def node5 : Mdl_function_call :=
  { m_module_tag := 10, m_definition_tag := 11, m_function_index := 0,
    m_mdl_semantic := 3, m_definition_name := "::m::g", m_immutable := false,
    m_parameter_types := [("a", wtype), ("b", btype)], m_return_type := wtype,
    m_arguments := [("a", we0), ("b", we0)],
    m_enable_if_conditions := [] }

/-- `node5` after parameter `a` was rebound to `eA`. -/
def node51 : Mdl_function_call :=
  { node5 with m_arguments := [("a", eA), ("b", we0)] }

/-- C5 witness: a bulk bind whose second entry is type-incompatible returns
that entry's error (-3) with the first entry already rebound. -/
theorem claim_C5_witness :
    set_arguments env5 node5 (some ([("a", eA)] ++ ("b", eBad) :: [])) =
      (-3, node51) :=
  claim_C5_first_failure_semantics env5 node5 node51 [("a", eA)] [] "b" eBad (-3)
    (by decide) (by decide) (by decide)

/-- C6: serialize followed by deserialize reproduces the call node: the
scalar fields (owner module ref, definition ref, function index, semantic
tag, qualified name, mutability flag) are identical and the parameter-type
list, return type, argument list and guard-condition list are value-equal to
the originals; any trailing stream content is left for later readers. -/
theorem claim_C6_serialize_roundtrip (node : Mdl_function_call)
    (rest : List Token) (h : node.m_mdl_semantic < 2 ^ 32) :
    deserialize (serialize node ++ rest) = some (node, rest) := by
  have h2 : node.m_mdl_semantic % 4294967296 = node.m_mdl_semantic :=
    Nat.mod_eq_of_lt (by omega)
  simp [serialize, deserialize, h2]

/-- C6 witness: the round trip at a concrete node. -/
theorem claim_C6_witness :
    deserialize (serialize wnode ++ []) = some (wnode, []) :=
  claim_C6_serialize_roundtrip wnode [] (by decide)

/-- C8: `get_scene_element_references` includes the owner module tag exactly
when the node is mutable (for an immutable node the result is precisely the
references collected from the arguments and the guard conditions), and in
every case includes all references collected from the arguments list and
from the guard-condition list. -/
theorem claim_C8_reference_collection (node : Mdl_function_call) :
    (node.m_immutable = false →
      node.m_module_tag ∈ get_scene_element_references node) ∧
    (node.m_immutable = true → ∀ t,
      t ∈ get_scene_element_references node ↔
        t ∈ collect_references node.m_arguments ∨
        t ∈ collect_references node.m_enable_if_conditions) ∧
    (∀ t, t ∈ collect_references node.m_arguments ∨
          t ∈ collect_references node.m_enable_if_conditions →
      t ∈ get_scene_element_references node) := by
  refine ⟨?_, ?_, ?_⟩
  · intro h
    simp [get_scene_element_references, h]
  · intro h t
    simp [get_scene_element_references, h]
  · intro t ht
    rcases ht with ht | ht <;>
      simp [get_scene_element_references, List.mem_append, ht]

/-- C8 witness: the module tag of a concrete mutable node is collected; on
the immutable variant the result is exactly the argument/guard references. -/
theorem claim_C8_witness :
    (10 : Nat) ∈ get_scene_element_references wnode ∧
    ((42 : Nat) ∈ get_scene_element_references cnode ↔
      (42 : Nat) ∈ collect_references cnode.m_arguments ∨
      (42 : Nat) ∈ collect_references cnode.m_enable_if_conditions) :=
  ⟨(claim_C8_reference_collection wnode).1 rfl,
   (claim_C8_reference_collection cnode).2.1 rfl 42⟩

/-! ### Claims about graph lowering -/

/-- The return shapes the spec's claim accepts: the primitive color type, or
the two-field legacy struct named `::base::texture_return` with fields
(color, float).  Written from the claim's words, for comparison with the
code's `checkReturnType`. -/
def acceptedReturnShape (rt : MdlType) : Prop :=
  rt = MdlType.color ∨
    ∃ n0 n1, rt = MdlType.struct_ "::base::texture_return"
      [(MdlType.color, n0), (MdlType.float, n1)]

theorem isColorKind_iff (t : MdlType) :
    isColorKind t = true ↔ t = MdlType.color := by
  cases t <;> simp [isColorKind]

theorem isFloatKind_iff (t : MdlType) :
    isFloatKind t = true ↔ t = MdlType.float := by
  cases t <;> simp [isFloatKind]

theorem texture_return_fields_iff (fields : List (MdlType × String)) :
    texture_return_fields fields = true ↔
      ∃ n0 n1, fields = [(MdlType.color, n0), (MdlType.float, n1)] := by
  match fields with
  | [] => simp [texture_return_fields]
  | [_] => simp [texture_return_fields]
  | (c, m0) :: (f, m1) :: [] =>
    simp only [texture_return_fields, Bool.and_eq_true, isColorKind_iff,
      isFloatKind_iff, List.cons.injEq, Prod.mk.injEq, and_true]
    constructor
    · rintro ⟨hc, hf⟩
      exact ⟨m0, m1, ⟨hc, rfl⟩, hf, rfl⟩
    · rintro ⟨n0, n1, ⟨hc, _⟩, hf, _⟩
      exact ⟨hc, hf⟩
  | _ :: _ :: _ :: _ => simp [texture_return_fields]

theorem checkReturnType_true_iff (rt : MdlType) :
    checkReturnType rt = true ↔ acceptedReturnShape rt := by
  cases rt with
  | color => simp [checkReturnType, acceptedReturnShape]
  | float => simp [checkReturnType, acceptedReturnShape]
  | other k => simp [checkReturnType, acceptedReturnShape]
  | struct_ sym fields =>
    by_cases hs : sym = "::base::texture_return"
    · subst hs
      simp [checkReturnType, acceptedReturnShape, texture_return_fields_iff]
    · simp [checkReturnType, acceptedReturnShape, hs, bne_iff_ne]

theorem convertArgs_eq_none (env : JitEnv) (args : List (String × IExpression))
    (params : List (String × MdlType))
    (h : ∃ p ∈ params, env.convert p.2 (lookupExpr args p.1) = none) :
    convertArgs env args params = none := by
  induction params with
  | nil => simp at h
  | cons q rest ih =>
    obtain ⟨qn, qt⟩ := q
    obtain ⟨p, hp, hc⟩ := h
    rcases List.mem_cons.mp hp with hq | hq
    · subst hq
      simp [convertArgs, hc]
    · cases hcq : env.convert qt (lookupExpr args qn) with
      | none => simp [convertArgs, hcq]
      | some d => simp [convertArgs, hcq, ih ⟨p, hq, hc⟩]

/-- C3: when the JIT generator is available but the resolved definition's
return type is neither the primitive color type nor the two-field
`::base::texture_return` struct with fields (color, float),
`create_jitted_function` returns UnsupportedReturnType (-2) with no compiled
output and without invoking either compile entry point. -/
theorem claim_C3_unsupported_return_type (env : JitEnv)
    (node : Mdl_function_call) (environment_context : Bool)
    (hgen : env.generator_ok = true)
    (hshape : ¬ acceptedReturnShape env.return_type) :
    create_jitted_function env node environment_context =
      { jitted := none, errors := -2, lambda_func := none,
        compile_invoked := false, log := [] } := by
  have hck : checkReturnType env.return_type = false := by
    cases hc : checkReturnType env.return_type
    · rfl
    · exact absurd ((checkReturnType_true_iff env.return_type).mp hc) hshape
  simp [create_jitted_function, hgen, hck]

/-- A lowering environment whose definition returns a plain float, for the
C3 witness. -/
def jenv3 : JitEnv :=
  { generator_ok := true, return_type := MdlType.float, def_semantic := 0,
    dag_function_name := "::m::f", dag_params := [],
    convert := fun _ _ => none,
    compile_switch := fun _ => some 7,
    compile_env := fun _ => some 8 }

/-- C3 witness: the unsupported-return-type rejection at a concrete
environment, in the switch context. -/
theorem claim_C3_witness :
    create_jitted_function jenv3 wnode false =
      { jitted := none, errors := -2, lambda_func := none,
        compile_invoked := false, log := [] } :=
  claim_C3_unsupported_return_type jenv3 wnode false rfl
    (by simp [jenv3, acceptedReturnShape])

/-- C4: when some parameter's bound argument fails to convert into a DAG node
(the converter oracle covers failure by cycle traversal), lowering returns
ConversionFailed (-3) immediately, logs a diagnostic carrying the qualified
name of the call, and neither invokes a compile entry point nor produces a
compiled function. -/
theorem claim_C4_conversion_failure (env : JitEnv) (node : Mdl_function_call)
    (environment_context : Bool)
    (hgen : env.generator_ok = true)
    (hrt : checkReturnType env.return_type = true)
    (hfail : ∃ p ∈ env.dag_params,
      env.convert p.2 (lookupExpr node.m_arguments p.1) = none) :
    create_jitted_function env node environment_context =
      { jitted := none, errors := -3,
        lambda_func := some { env_context := environment_context, roots := [],
                              body := none },
        compile_invoked := false, log := [mdlDbName env.dag_function_name] } := by
  have hconv := convertArgs_eq_none env node.m_arguments env.dag_params hfail
  simp [create_jitted_function, hgen, hrt, hconv]

/-- A lowering environment with one parameter whose conversion always fails
(as with a reference cycle), for the C4 witness. -/
def jenv4 : JitEnv :=
  { generator_ok := true, return_type := MdlType.color, def_semantic := 0,
    dag_function_name := "::m::f", dag_params := [("a", MdlType.float)],
    convert := fun _ _ => none,
    compile_switch := fun _ => some 7,
    compile_env := fun _ => some 8 }

/-- C4 witness: the conversion failure at a concrete environment. -/
theorem claim_C4_witness :
    create_jitted_function jenv4 wnode false =
      { jitted := none, errors := -3,
        lambda_func := some { env_context := false, roots := [], body := none },
        compile_invoked := false, log := [mdlDbName jenv4.dag_function_name] } :=
  claim_C4_conversion_failure jenv4 wnode false rfl rfl
    ⟨("a", MdlType.float), by simp [jenv4], rfl⟩

/-- C7: when the definition's return type matched the legacy two-field
aggregate shape, the produced DAG call node is wrapped in an additional
field-access node of semantic `DS_INTRINSIC_DAG_FIELD_ACCESS` extracting the
struct's first (color) field, and this wrapped node — not the bare aggregate
call — is what is attached to the compilation unit, as the root expression in
the root/switch context and as the body in the environment context. -/
theorem claim_C7_legacy_struct_unwrap (env : JitEnv) (node : Mdl_function_call)
    (n0 n1 : String) (margs : List (String × DagNode))
    (hgen : env.generator_ok = true)
    (hrt : env.return_type = MdlType.struct_ "::base::texture_return"
      [(MdlType.color, n0), (MdlType.float, n1)])
    (hconv : convertArgs env node.m_arguments env.dag_params = some margs) :
    (create_jitted_function env node false).lambda_func =
      some { env_context := false,
             roots := [DagNode.call
               ("::base::texture_return" ++ "." ++ n0 ++ "(" ++
                 "::base::texture_return" ++ ")")
               DS_INTRINSIC_DAG_FIELD_ACCESS
               [("s", DagNode.call env.dag_function_name env.def_semantic margs
                  env.return_type)]
               MdlType.color],
             body := none } ∧
    (create_jitted_function env node true).lambda_func =
      some { env_context := true, roots := [],
             body := some (DagNode.call
               ("::base::texture_return" ++ "." ++ n0 ++ "(" ++
                 "::base::texture_return" ++ ")")
               DS_INTRINSIC_DAG_FIELD_ACCESS
               [("s", DagNode.call env.dag_function_name env.def_semantic margs
                  env.return_type)]
               MdlType.color) } := by
  have hck : checkReturnType (MdlType.struct_ "::base::texture_return"
      [(MdlType.color, n0), (MdlType.float, n1)]) = true := by
    simp [checkReturnType, texture_return_fields, isColorKind, isFloatKind]
  constructor <;>
  · simp only [create_jitted_function, hgen, hrt, hck, hconv]
    simp only [Bool.true_eq_false, Bool.false_eq_true, if_false, ite_false,
      List.nil_append]
    split <;> rfl

/-- A lowering environment whose definition returns the legacy struct, for
the C7 witness. -/
def jenv7 : JitEnv :=
  { generator_ok := true,
    return_type := MdlType.struct_ "::base::texture_return"
      [(MdlType.color, "tint"), (MdlType.float, "mono")],
    def_semantic := 0, dag_function_name := "::m::h", dag_params := [],
    convert := fun _ _ => none,
    compile_switch := fun _ => some 7,
    compile_env := fun _ => none }

/-- C7 witness: the wrapped field-access node is attached in both contexts at
a concrete environment. -/
theorem claim_C7_witness :
    (create_jitted_function jenv7 wnode false).lambda_func =
      some { env_context := false,
             roots := [DagNode.call
               ("::base::texture_return" ++ "." ++ "tint" ++ "(" ++
                 "::base::texture_return" ++ ")")
               DS_INTRINSIC_DAG_FIELD_ACCESS
               [("s", DagNode.call jenv7.dag_function_name jenv7.def_semantic []
                  jenv7.return_type)]
               MdlType.color],
             body := none } ∧
    (create_jitted_function jenv7 wnode true).lambda_func =
      some { env_context := true, roots := [],
             body := some (DagNode.call
               ("::base::texture_return" ++ "." ++ "tint" ++ "(" ++
                 "::base::texture_return" ++ ")")
               DS_INTRINSIC_DAG_FIELD_ACCESS
               [("s", DagNode.call jenv7.dag_function_name jenv7.def_semantic []
                  jenv7.return_type)]
               MdlType.color) } :=
  claim_C7_legacy_struct_unwrap jenv7 wnode "tint" "mono" [] rfl rfl rfl

end MdlFC
